import Mathlib

/-!
Verification of the N-Queens experiment sweep driver (`run_nqueens.py`) and
results aggregator (`analyze_nqueens.py`).

The two Python scripts are shallowly embedded:
* the record store (`Data/summary.csv`) is a `List RawRecord` of raw string
  cells, one per contract column;
* `pd.to_numeric(col, errors="coerce")` is `toNumeric : String → Option ℚ`
  (`none` is the missing-value sentinel, i.e. NaN);
* the sweep driver's grid loop over `itertools.product` is `productGrid`,
  its per-triple `try/except subprocess.run` block is `runTriple`, and the
  whole script is `driverMain` (the external solver is a parameter);
* the aggregator's grouped statistics, correlation matrix and reduced
  export are `failure_rates`, `corr_matrix` and `reduced_df`, and the
  script's top-level control flow is `analyzerMain`.
-/

/-- Value of a run of decimal digit characters, most significant first. -/
def natVal (cs : List Char) : Nat :=
  cs.foldl (fun n c => n * 10 + (c.toNat - 48)) 0

/-- Strip leading and trailing whitespace of a list of characters. -/
def trimChars (cs : List Char) : List Char :=
  ((cs.dropWhile Char.isWhitespace).reverse.dropWhile Char.isWhitespace).reverse

/-- Unsigned decimal literal: digits, optionally followed by a dot and more
digits (at least one digit overall); anything else is rejected. -/
def parseUnsignedDecimal (cs : List Char) : Option ℚ :=
  let ip := cs.takeWhile Char.isDigit
  let rest := cs.dropWhile Char.isDigit
  match rest with
  | [] => if ip.isEmpty then none else some ((natVal ip : ℚ))
  | c :: fp =>
      if c = '.' then
        if fp.all Char.isDigit then
          if ip.isEmpty && fp.isEmpty then none
          else some ((natVal ip : ℚ) + (natVal fp : ℚ) / (10 : ℚ) ^ fp.length)
        else none
      else none

/-- Embeds `pd.to_numeric(cell, errors="coerce")` on one cell: numeric
coercion that never raises, yielding the missing-value sentinel `none`
(pandas NaN) on any malformed cell.  Decimal literals with an optional
sign/fraction are accepted; the model leaves out exponent notation, which
the repository's record store does not use. -/
def toNumeric (s : String) : Option ℚ :=
  match trimChars s.toList with
  | '-' :: rest => (parseUnsignedDecimal rest).map (fun q => -q)
  | '+' :: rest => parseUnsignedDecimal rest
  | rest => parseUnsignedDecimal rest

/-- One raw row of `Data/summary.csv`, one string cell per contract column
(header names from the record-store contract; order per §6 of the design). -/
structure RawRecord where
  Id : String
  NQueens : String
  AlgorithmType : String
  Seed : String
  MutationRate : String
  FinalMutationRate : String
  Generations : String
  PopulationSize : String
  Complexity : String
  ElapsedTimeSeconds : String
  StagnationCount : String
  StagnationMutationThresholdHigh : String
  StagnationMutationThresholdLow : String
  Intersections : String
  Failures : String
  deriving DecidableEq

/-- A loaded row after the aggregator's coercion pass and the derived
`Failure` column (`df['Failure'] = df['Intersections'] > 0`). -/
structure Record where
  Id : Option ℚ
  NQueens : Option ℚ
  AlgorithmType : String
  Seed : Option ℚ
  MutationRate : Option ℚ
  FinalMutationRate : Option ℚ
  Generations : Option ℚ
  PopulationSize : Option ℚ
  Complexity : Option ℚ
  ElapsedTimeSeconds : Option ℚ
  StagnationCount : Option ℚ
  StagnationMutationThresholdHigh : Option ℚ
  StagnationMutationThresholdLow : Option ℚ
  Intersections : Option ℚ
  Failures : Option ℚ
  Failure : Bool
  deriving DecidableEq

/-- `df['Intersections'] > 0` on one coerced cell.  In pandas a NaN cell
compares `False` against `0`, which the `none` branch mirrors. -/
def failureFlag (x : Option ℚ) : Bool :=
  match x with
  | some v => decide (0 < v)
  | none => false

/-- Loading one row: numeric coercion of every designated numeric column
(`for col in numeric_columns: df[col] = pd.to_numeric(df[col], errors="coerce")`)
followed by the derived failure flag.  Total: a malformed row never raises. -/
def loadRecord (r : RawRecord) : Record :=
  ⟨toNumeric r.Id, toNumeric r.NQueens, r.AlgorithmType, toNumeric r.Seed,
   toNumeric r.MutationRate, toNumeric r.FinalMutationRate, toNumeric r.Generations,
   toNumeric r.PopulationSize, toNumeric r.Complexity, toNumeric r.ElapsedTimeSeconds,
   toNumeric r.StagnationCount, toNumeric r.StagnationMutationThresholdHigh,
   toNumeric r.StagnationMutationThresholdLow, toNumeric r.Intersections,
   toNumeric r.Failures, failureFlag (toNumeric r.Intersections)⟩

/-- The loaded record table (`df = pd.read_csv(csv_file)` plus coercion). -/
def loadTable (rows : List RawRecord) : List Record := rows.map loadRecord

/-- A boolean averaged by pandas `.mean()` counts as 1 or 0. -/
def boolToQ (b : Bool) : ℚ := if b then 1 else 0

/-- pandas `.mean()` of a list: NaN (here `none`) on an empty list,
otherwise the arithmetic mean. -/
def listMeanQ (l : List ℚ) : Option ℚ :=
  if l.isEmpty then none else some (l.sum / (l.length : ℚ))

/-- Insertion into a ≤-sorted list of strings. -/
def insertSorted (x : String) : List String → List String
  | [] => [x]
  | y :: ys => if x ≤ y then x :: y :: ys else y :: insertSorted x ys

/-- Insertion sort on strings. -/
def sortStrings (l : List String) : List String := l.foldr insertSorted []

/-- Categories declared by `df['AlgorithmType'].astype('category')`: the
sorted distinct values present in the column. -/
def inferCategories (vals : List String) : List String := (sortStrings vals).dedup

/-- The rows of one `groupby('AlgorithmType')` group. -/
def groupRecords (c : String) (tbl : List Record) : List Record :=
  tbl.filter (fun r => r.AlgorithmType == c)

/-- Number of rows of a group: the denominator of its `.mean()`. -/
def groupSize (c : String) (tbl : List Record) : Nat := (groupRecords c tbl).length

/-- Number of rows of a group with the derived failure flag set: the
numerator of that group's failure rate. -/
def failureTrueCount (c : String) (tbl : List Record) : Nat :=
  ((groupRecords c tbl).filter (fun r => r.Failure)).length

/-- `groupby('AlgorithmType', observed=False)['Failure'].mean()`: one entry
per declared category, in declaration order; an empty group's mean is the
absent value `none` (pandas NaN), never `0`. -/
def groupFailureMean (cats : List String) (tbl : List Record) : List (String × Option ℚ) :=
  cats.map (fun c => (c, listMeanQ ((groupRecords c tbl).map (fun r => boolToQ r.Failure))))

/-- `failure_rates = df.groupby('AlgorithmType', observed=False)['Failure'].mean()`:
the declared categories are those of the categorical dtype, inferred from
the loaded column. -/
def failure_rates (tbl : List Record) : List (String × Option ℚ) :=
  groupFailureMean (inferCategories (tbl.map (fun r => r.AlgorithmType))) tbl

/-- `df_valid = df[df['Failure'] == False]`. -/
def df_valid (tbl : List Record) : List Record := tbl.filter (fun r => r.Failure == false)

/-- The observations entering any aggregate over `ElapsedTimeSeconds`:
pandas skips NaN cells, so only `some` cells contribute. -/
def elapsedObs (tbl : List Record) : List ℚ := tbl.filterMap (fun r => r.ElapsedTimeSeconds)

/-- The `ElapsedTimeSeconds` observations of one group of
`df_valid.groupby('AlgorithmType', observed=False)['ElapsedTimeSeconds'].mean()`. -/
def avgElapsedObs (c : String) (tbl : List Record) : List ℚ :=
  ((df_valid tbl).filter (fun r => r.AlgorithmType == c)).filterMap
    (fun r => r.ElapsedTimeSeconds)

/-- `avg_elapsed`: per-category mean elapsed time over the valid rows. -/
def avg_elapsed (tbl : List Record) : List (String × Option ℚ) :=
  (inferCategories (tbl.map (fun r => r.AlgorithmType))).map
    (fun c => (c, listMeanQ (avgElapsedObs c tbl)))

/-- The `numeric_columns` list of the aggregator (source lines 22-27). -/
def numeric_columns : List String :=
  ["Id", "NQueens", "Seed", "MutationRate", "FinalMutationRate", "Generations",
   "PopulationSize", "Complexity", "ElapsedTimeSeconds", "StagnationCount",
   "StagnationMutationThresholdHigh", "StagnationMutationThresholdLow",
   "Intersections", "Failures"]

/-- The record store's contract columns, in store order. -/
def storeColumns : List String :=
  ["Id", "NQueens", "AlgorithmType", "Seed", "MutationRate", "FinalMutationRate",
   "Generations", "PopulationSize", "Complexity", "ElapsedTimeSeconds",
   "StagnationCount", "StagnationMutationThresholdHigh",
   "StagnationMutationThresholdLow", "Intersections", "Failures"]

/-- `df.select_dtypes(include=[np.number]).columns`: after the coercion
pass exactly the designated numeric columns have a numeric dtype
(`AlgorithmType` is categorical and the derived `Failure` column is bool,
which `np.number` excludes). -/
def numeric_cols : List String := storeColumns.filter (fun c => numeric_columns.contains c)

/-- `if 'Seed' in numeric_cols: numeric_cols.remove('Seed')` — the columns
actually entering the correlation matrix. -/
def corr_cols : List String := numeric_cols.erase ("Seed")

/-- Cell of a loaded row under a numeric column name (`df[col]` for the
columns a numeric aggregate can see). -/
def getCol (c : String) (r : Record) : Option ℚ :=
  if c == "Id" then r.Id
  else if c == "NQueens" then r.NQueens
  else if c == "Seed" then r.Seed
  else if c == "MutationRate" then r.MutationRate
  else if c == "FinalMutationRate" then r.FinalMutationRate
  else if c == "Generations" then r.Generations
  else if c == "PopulationSize" then r.PopulationSize
  else if c == "Complexity" then r.Complexity
  else if c == "ElapsedTimeSeconds" then r.ElapsedTimeSeconds
  else if c == "StagnationCount" then r.StagnationCount
  else if c == "StagnationMutationThresholdHigh" then r.StagnationMutationThresholdHigh
  else if c == "StagnationMutationThresholdLow" then r.StagnationMutationThresholdLow
  else if c == "Intersections" then r.Intersections
  else if c == "Failures" then r.Failures
  else none

/-- One row's contribution to the correlation of two columns: pandas
`DataFrame.corr` uses pairwise-complete observations, so a row contributes
only when both cells are present. -/
def colPair (c1 c2 : String) (r : Record) : Option (ℚ × ℚ) :=
  match getCol c1 r, getCol c2 r with
  | some a, some b => some (a, b)
  | _, _ => none

/-- The pairwise-complete observations of two columns. -/
def pairedObs (tbl : List Record) (c1 c2 : String) : List (ℚ × ℚ) :=
  tbl.filterMap (colPair c1 c2)

/-- Arithmetic mean of a list of rationals (0 on the empty list, where
pandas would give NaN; degenerate inputs do not occur in the claims). -/
def qmean (l : List ℚ) : ℚ := l.sum / (l.length : ℚ)

/-- Sum of products of centered coordinates, the shared kernel of the
covariance and the variances entering a Pearson coefficient. -/
def centeredProdSum (ps : List (ℚ × ℚ)) : ℚ :=
  let mx := qmean (ps.map Prod.fst)
  let my := qmean (ps.map Prod.snd)
  (ps.map (fun p => (p.1 - mx) * (p.2 - my))).sum

/-- Pearson correlation coefficient of a list of paired observations, the
statistic `DataFrame.corr` computes per column pair.  (`Real.sqrt` makes
this the one noncomputable definition of the development.) -/
noncomputable def pearson (ps : List (ℚ × ℚ)) : ℝ :=
  ((centeredProdSum ps : ℚ) : ℝ) /
    (Real.sqrt ((centeredProdSum (ps.map (fun p => (p.1, p.1))) : ℚ) : ℝ) *
     Real.sqrt ((centeredProdSum (ps.map (fun p => (p.2, p.2))) : ℚ) : ℝ))

/-- One entry of `corr_matrix = df[numeric_cols].corr()`: the Pearson
coefficient of the pairwise-complete observations of the two columns. -/
noncomputable def corrEntry (tbl : List Record) (c1 c2 : String) : ℝ :=
  pearson (pairedObs tbl c1 c2)

/-- The full correlation matrix, rows and columns labelled by `corr_cols`. -/
noncomputable def corr_matrix (tbl : List Record) : List (String × List (String × ℝ)) :=
  corr_cols.map (fun c1 => (c1, corr_cols.map (fun c2 => (c2, corrEntry tbl c1 c2))))

/-- `df.head(k)`. -/
def dfHead (k : Nat) (df : List α) : List α := df.take k

/-- `df.tail(k)`: the last `k` rows (all rows when fewer than `k`). -/
def dfTail (k : Nat) (df : List α) : List α := df.drop (df.length - k)

/-- `pd.concat([df.head(5), df.tail(5)])`, the reduced export written to
`summaryReduced.csv`.  Rows are whatever the re-read table holds; the
definition is row-generic since the export is purely row-wise. -/
def reduced_df (df : List α) : List α := dfHead 5 df ++ dfTail 5 df

/-- Outcome of one `subprocess.run` of the external solver: either the
process completed (with captured stdout, stderr and exit code) or the
invocation layer raised. -/
inductive ProcResult where
  | finished (stdout stderr : String) (exitCode : Int)
  | raised (msg : String)
  deriving DecidableEq

/-- The external solver as an opaque collaborator: one outcome per
`(N, algorithmType, seed, debugMode)` invocation. -/
abbrev Solver : Type := Nat → String → Nat → Bool → ProcResult

/-- Console events of the sweep driver, in print order. -/
inductive LogEvent where
  | exeMissingError
  | runningHeader (n : Nat) (alg : String) (seed : Nat)
  | stdoutPrint (s : String)
  | stderrPrint (s : String)
  | execFailed (msg : String)
  | runningAnalysis
  | analysisSkipped
  | allCompleted
  deriving DecidableEq

/-- `debug_mode = False` (kept off for large runs). -/
def debug_mode : Bool := false

/-- `n_values`, the configured board sizes. -/
def n_values : List Nat := [4, 6, 8, 10, 12, 14, 16, 18, 20, 24, 32, 50, 64, 80]

/-- `algorithms`, the configured algorithm-type labels. -/
def algorithms : List String := ["Genetic", "Tournament"]

/-- `seeds = range(0, 100)`. -/
def seeds : List Nat := List.range 100

/-- `itertools.product(n_values, algorithms, seeds)`: size-major, then
algorithm, then seed. -/
def productGrid (ns : List Nat) (algs : List String) (sds : List Nat) :
    List (Nat × String × Nat) :=
  ns.flatMap (fun n => algs.flatMap (fun a => sds.map (fun s => (n, a, s))))

/-- The loop body for one triple: print the header, run the solver inside
`try/except`, print stdout, print stderr when nonempty, and on any raised
exception print the failure — in every case the body returns normally. -/
def runTriple (solver : Solver) (n : Nat) (a : String) (s : Nat) : List LogEvent :=
  LogEvent.runningHeader n a s ::
    (match solver n a s debug_mode with
     | ProcResult.finished out err _ =>
         LogEvent.stdoutPrint out :: (if err.isEmpty then [] else [LogEvent.stderrPrint err])
     | ProcResult.raised m => [LogEvent.execFailed m])

/-- The whole sweep loop: one loop-body execution per grid triple, with
the triple it served. -/
def sweepLog (solver : Solver) (ns : List Nat) (algs : List String) (sds : List Nat) :
    List ((Nat × String × Nat) × List LogEvent) :=
  (productGrid ns algs sds).map (fun t => (t, runTriple solver t.1 t.2.1 t.2.2))

/-- The triples for which a solver invocation was attempted, in order. -/
def invokedTriples (solver : Solver) (ns : List Nat) (algs : List String) (sds : List Nat) :
    List (Nat × String × Nat) :=
  (sweepLog solver ns algs sds).map Prod.fst

/-- The driver script `run_nqueens.py` end to end: fail fast with exit
code 1 when the executable is absent; otherwise run the full sweep, then
run the analysis script when present (its outcome is never inspected) or
print that it is skipped, and finally report completion.  Returns the
process exit code with the console log. -/
def driverMain (exeExists analysisExists : Bool) (solver : Solver)
    (ns : List Nat) (algs : List String) (sds : List Nat)
    (_analysisOutcome : ProcResult) : Int × List LogEvent :=
  if exeExists then
    (0, (sweepLog solver ns algs sds).flatMap Prod.snd ++
        (if analysisExists then [LogEvent.runningAnalysis] else [LogEvent.analysisSkipped]) ++
        [LogEvent.allCompleted])
  else
    (1, [LogEvent.exeMissingError])

/-- The artifacts `analyze_nqueens.py` writes, in script order. -/
inductive Artifact where
  | elapsedTimeComparison
  | timeComplexityComparison
  | failureRateComparison
  | parameterCorrelationHeatmap
  | avgElapsedTimeValid
  | summaryReducedCsv
  deriving DecidableEq

/-- Outcome of the aggregator script: a fatal diagnostic with an exit
code, or completion with the artifacts written, the grouped failure rates
and the rows of `summaryReduced.csv`. -/
inductive AnalyzerResult where
  | fatal (msg : String) (exitCode : Int)
  | completed (artifactsOut : List Artifact) (rates : List (String × Option ℚ))
      (reducedOut : List RawRecord)
  deriving DecidableEq

/-- Every artifact of one complete analysis run, in production order. -/
def allArtifacts : List Artifact :=
  [Artifact.elapsedTimeComparison, Artifact.timeComplexityComparison,
   Artifact.failureRateComparison, Artifact.parameterCorrelationHeatmap,
   Artifact.avgElapsedTimeValid, Artifact.summaryReducedCsv]

/-- The aggregator script `analyze_nqueens.py` end to end.  `none` models
a missing `Data/summary.csv` (the existence check fails: diagnostic and
`exit(1)` before any artifact); `some rows` models a present store with
`rows` records, for which the script runs to completion — the reduced
export re-reads the raw table, so it is `reduced_df` of the raw rows. -/
def analyzerMain (store : Option (List RawRecord)) : AnalyzerResult :=
  match store with
  | none => AnalyzerResult.fatal ("Error: summary.csv not found in Data folder.") 1
  | some rows =>
      AnalyzerResult.completed allArtifacts (failure_rates (loadTable rows)) (reduced_df rows)

/-- A raw row whose `ElapsedTimeSeconds` cell is malformed. -/
def rawMalformedElapsed : RawRecord :=
  ⟨"1", "8", "Genetic", "0", "0.1", "0.05", "100", "50", "1000", "abc", "2",
   "0.9", "0.3", "2", "0"⟩

/-- A raw row whose `Intersections` cell is malformed while
`ElapsedTimeSeconds` parses. -/
def rawMissingIntersections : RawRecord :=
  ⟨"2", "8", "Tournament", "1", "", "", "", "", "64", "2.5", "0", "", "", "NA", "0"⟩

/-- A fully well-formed raw row with a failing board. -/
def rawFailedRun : RawRecord :=
  ⟨"3", "8", "Genetic", "2", "0.1", "0.05", "100", "50", "1000", "1.5", "2",
   "0.9", "0.3", "3", "1"⟩

/-- A fully well-formed raw row with a valid board. -/
def rawValidRun : RawRecord :=
  ⟨"4", "8", "Tournament", "3", "", "", "", "", "64", "0.5", "0", "", "", "0", "0"⟩

/-- A solver whose every invocation raises, exercising the failure path. -/
def failingSolver : Solver := fun _ _ _ _ => ProcResult.raised ("boom")

theorem invokedTriples_eq_grid (solver : Solver) (ns : List Nat) (algs : List String)
    (sds : List Nat) : invokedTriples solver ns algs sds = productGrid ns algs sds := by
  unfold invokedTriples sweepLog
  rw [List.map_map]
  exact List.map_id _

theorem productGrid_eq_sprod (ns : List Nat) (algs : List String) (sds : List Nat) :
    productGrid ns algs sds = ns ×ˢ (algs ×ˢ sds) := by
  simp only [SProd.sprod, List.product, List.map_flatMap, List.map_map]
  rfl

theorem count_triple_beq (t : Nat × String × Nat) (l : List (Nat × String × Nat)) :
    l.count t = @List.count _ instBEqOfDecidableEq t l := by
  rw [List.count_eq_countP, @List.count_eq_countP _ instBEqOfDecidableEq]
  apply List.countP_congr
  intro x _
  simp [beq_iff_eq, instBEqOfDecidableEq]

/-- C1 (amended): the reduced export is the concatenation of the first five
and the last five rows of the re-read table, in load order: for tables of
at least ten rows it is exactly the first five rows followed by the last
five with nothing duplicated, and in general it has
`min 5 M + min 5 M` rows — so for `M < 10` the rows shared by the head and
tail appear twice (`M = 7` yields ten rows, not seven). -/
theorem reduced_export_head_tail (pre mid post : List α)
    (h1 : pre.length = 5) (h2 : post.length = 5) :
    reduced_df (pre ++ mid ++ post) = pre ++ post ∧
      ∀ df : List α, (reduced_df df).length = min 5 df.length + min 5 df.length := by
  constructor
  · show (pre ++ mid ++ post).take 5 ++
        (pre ++ mid ++ post).drop ((pre ++ mid ++ post).length - 5) = pre ++ post
    have hTake : (pre ++ mid ++ post).take 5 = pre := by
      rw [List.append_assoc]
      exact List.take_left' h1
    have hLen : (pre ++ mid).length = (pre ++ mid ++ post).length - 5 := by
      simp only [List.length_append, h1, h2]
      omega
    have hDrop : (pre ++ mid ++ post).drop ((pre ++ mid ++ post).length - 5) = post := by
      rw [show pre ++ mid ++ post = (pre ++ mid) ++ post from by simp [List.append_assoc]]
      exact List.drop_left' hLen
    rw [hTake, hDrop]
  · intro df
    simp [reduced_df, dfHead, dfTail, List.length_take, List.length_drop]
    omega

/-- C1 witness: a twelve-row table exports exactly its first five and last
five rows. -/
theorem reduced_export_head_tail_witness :
    ([0, 1, 2, 3, 4] : List Nat).length = 5 ∧ ([7, 8, 9, 10, 11] : List Nat).length = 5 ∧
      (reduced_df ([0, 1, 2, 3, 4] ++ [5, 6] ++ [7, 8, 9, 10, 11]) =
          [0, 1, 2, 3, 4] ++ [7, 8, 9, 10, 11] ∧
        ∀ df : List Nat, (reduced_df df).length = min 5 df.length + min 5 df.length) :=
  ⟨by decide, by decide,
   reduced_export_head_tail [0, 1, 2, 3, 4] [5, 6] [7, 8, 9, 10, 11] (by decide) (by decide)⟩

/-- C1 counterexample: on a seven-row table the export is the head rows
followed by the tail rows with the overlap duplicated — ten rows, not the
seven distinct rows the claim requires. -/
theorem reduced_export_seven_rows_counterexample :
    reduced_df [0, 1, 2, 3, 4, 5, 6] = [0, 1, 2, 3, 4, 2, 3, 4, 5, 6] ∧
      (reduced_df [0, 1, 2, 3, 4, 5, 6]).length = 10 ∧
      reduced_df [0, 1, 2, 3, 4, 5, 6] ≠ [0, 1, 2, 3, 4, 5, 6] := by decide

/-- C2: over any duplicate-free grid the sweep driver attempts exactly one
solver invocation per (size, algorithm, seed) triple, the number of
attempts is the size of the grid, and the order is size-major, then
algorithm, then seed — as on the example grid N in 4,8; Genetic,
Tournament; seeds 0,1. -/
theorem sweep_invokes_once_per_triple (solver : Solver) (ns : List Nat) (algs : List String)
    (sds : List Nat) (n : Nat) (a : String) (s : Nat)
    (hn : ns.Nodup) (ha : algs.Nodup) (hs : sds.Nodup)
    (hnm : n ∈ ns) (ham : a ∈ algs) (hsm : s ∈ sds) :
    (invokedTriples solver ns algs sds).count (n, a, s) = 1 ∧
      (invokedTriples solver ns algs sds).length = ns.length * algs.length * sds.length ∧
      invokedTriples solver [4, 8] ["Genetic", "Tournament"] [0, 1] =
        [(4, "Genetic", 0), (4, "Genetic", 1), (4, "Tournament", 0), (4, "Tournament", 1),
         (8, "Genetic", 0), (8, "Genetic", 1), (8, "Tournament", 0), (8, "Tournament", 1)] := by
  refine ⟨?_, ?_, ?_⟩
  · rw [invokedTriples_eq_grid, productGrid_eq_sprod, count_triple_beq]
    exact List.count_eq_one_of_mem (hn.product (ha.product hs))
      (List.mem_product.mpr ⟨hnm, List.mem_product.mpr ⟨ham, hsm⟩⟩)
  · rw [invokedTriples_eq_grid, productGrid_eq_sprod, List.length_product, List.length_product,
      Nat.mul_assoc]
  · rw [invokedTriples_eq_grid]
    decide

/-- C2 witness: the example grid, with the count checked for N=8,
Tournament, seed 0. -/
theorem sweep_invokes_once_per_triple_witness :
    ([4, 8] : List Nat).Nodup ∧ (["Genetic", "Tournament"] : List String).Nodup ∧
      ([0, 1] : List Nat).Nodup ∧
      ((invokedTriples failingSolver [4, 8] ["Genetic", "Tournament"] [0, 1]).count
          (8, "Tournament", 0) = 1 ∧
        (invokedTriples failingSolver [4, 8] ["Genetic", "Tournament"] [0, 1]).length =
          ([4, 8] : List Nat).length * (["Genetic", "Tournament"] : List String).length *
            ([0, 1] : List Nat).length ∧
        invokedTriples failingSolver [4, 8] ["Genetic", "Tournament"] [0, 1] =
          [(4, "Genetic", 0), (4, "Genetic", 1), (4, "Tournament", 0), (4, "Tournament", 1),
           (8, "Genetic", 0), (8, "Genetic", 1), (8, "Tournament", 0), (8, "Tournament", 1)]) :=
  ⟨by decide, by decide, by decide,
   sweep_invokes_once_per_triple failingSolver [4, 8] ["Genetic", "Tournament"] [0, 1]
     8 ("Tournament") 0 (by decide) (by decide) (by decide) (by decide) (by decide) (by decide)⟩

/-- C3: whatever the external solver does — raise from the invocation
layer, or finish with any exit code and stderr — the sweep attempts every
triple of the grid: the loop body is total, a raised invocation only logs
the failure, and stderr output is logged without aborting. -/
theorem sweep_failure_isolation (solver : Solver) (ns : List Nat) (algs : List String)
    (sds : List Nat) :
    invokedTriples solver ns algs sds = productGrid ns algs sds ∧
      (∀ n a s m, solver n a s debug_mode = ProcResult.raised m →
        runTriple solver n a s = [LogEvent.runningHeader n a s, LogEvent.execFailed m]) ∧
      (∀ n a s out err c, solver n a s debug_mode = ProcResult.finished out err c →
        err ≠ "" → LogEvent.stderrPrint err ∈ runTriple solver n a s) := by
  refine ⟨invokedTriples_eq_grid solver ns algs sds, ?_, ?_⟩
  · intro n a s m h
    simp [runTriple, h]
  · intro n a s out err c h hne
    have he : err.isEmpty = false := by
      cases he2 : err.isEmpty with
      | false => rfl
      | true => exact absurd ((String.isEmpty_iff err).mp he2) hne
    simp [runTriple, h, he]

/-- C3 witness: a solver that always raises still has every grid triple
attempted, and its failure is logged in the loop body's output. -/
theorem sweep_failure_isolation_witness :
    invokedTriples failingSolver [4] ["Genetic"] [0] = productGrid [4] ["Genetic"] [0] ∧
      runTriple failingSolver 4 ("Genetic") 0 =
        [LogEvent.runningHeader 4 ("Genetic") 0, LogEvent.execFailed ("boom")] :=
  ⟨(sweep_failure_isolation failingSolver [4] ["Genetic"] [0]).1,
   (sweep_failure_isolation failingSolver [4] ["Genetic"] [0]).2.1 4 ("Genetic") 0 ("boom") rfl⟩

theorem loadRecord_Failure_eq (raw : RawRecord) :
    (loadRecord raw).Failure = failureFlag ((loadRecord raw).Intersections) := rfl

theorem mem_loadTable_Failure (rows : List RawRecord) (r : Record) (hr : r ∈ loadTable rows) :
    r.Failure = failureFlag r.Intersections := by
  obtain ⟨raw, _, rfl⟩ := List.mem_map.mp hr
  rfl

theorem failureTrueCount_eq_filter (c : String) (rows : List RawRecord) :
    failureTrueCount c (loadTable rows) =
      ((loadTable rows).filter
        (fun r => r.AlgorithmType == c && failureFlag r.Intersections)).length := by
  unfold failureTrueCount groupRecords
  rw [List.filter_filter]
  congr 1
  apply List.filter_congr
  intro r hr
  rw [mem_loadTable_Failure rows r hr, Bool.and_comm]

theorem df_valid_loadTable_eq (rows : List RawRecord) :
    df_valid (loadTable rows) =
      (loadTable rows).filter (fun r => !(failureFlag r.Intersections)) := by
  unfold df_valid
  apply List.filter_congr
  intro r hr
  rw [mem_loadTable_Failure rows r hr]
  cases failureFlag r.Intersections <;> rfl

/-- C4: the derived failure flag added at load time is exactly
`intersections > 0` on the coerced cell — `false` at zero intersections,
`true` at three — and it is the very value every downstream statistic
consumes: the per-group failure numerator counts exactly the records whose
coerced intersections are positive, and the valid-run filter keeps exactly
the records whose flag is unset. -/
theorem failure_flag_semantics :
    (∀ raw : RawRecord, (loadRecord raw).Failure = failureFlag ((loadRecord raw).Intersections)) ∧
      failureFlag (some 0) = false ∧
      failureFlag (some 3) = true ∧
      (∀ v : ℚ, failureFlag (some v) = decide (0 < v)) ∧
      (∀ (rows : List RawRecord) (c : String),
        failureTrueCount c (loadTable rows) =
          ((loadTable rows).filter
            (fun r => r.AlgorithmType == c && failureFlag r.Intersections)).length) ∧
      (∀ rows : List RawRecord,
        df_valid (loadTable rows) =
          (loadTable rows).filter (fun r => !(failureFlag r.Intersections))) := by
  refine ⟨fun raw => rfl, by decide, by decide, fun v => rfl,
    fun rows c => failureTrueCount_eq_filter c rows, ?_⟩
  intro rows
  exact df_valid_loadTable_eq rows

theorem sum_boolToQ_filter (grp : List Record) :
    (grp.map (fun r => boolToQ r.Failure)).sum =
      ((grp.filter (fun r => r.Failure)).length : ℚ) := by
  induction grp with
  | nil => simp
  | cons r tl ih =>
      rw [List.map_cons, List.sum_cons, ih, List.filter_cons]
      cases hr : r.Failure
      · simp [boolToQ, hr]
      · simp only [boolToQ, hr, if_true, List.length_cons]
        push_cast
        ring

theorem groupFailureMean_value (c : String) (tbl : List Record) :
    listMeanQ ((groupRecords c tbl).map (fun r => boolToQ r.Failure)) =
      if groupSize c tbl = 0 then none
      else some ((failureTrueCount c tbl : ℚ) / (groupSize c tbl : ℚ)) := by
  unfold listMeanQ
  rw [sum_boolToQ_filter]
  by_cases hg : groupRecords c tbl = []
  · simp [hg, groupSize]
  · have hne : groupSize c tbl ≠ 0 := by
      simpa [groupSize, List.length_eq_zero] using hg
    simp [List.isEmpty_iff, hg, groupSize, failureTrueCount, hne, List.length_map]

theorem sortStrings_cons (y : String) (ys : List String) :
    sortStrings (y :: ys) = insertSorted y (sortStrings ys) := rfl

theorem mem_insertSorted (x y : String) (l : List String) :
    y ∈ insertSorted x l ↔ y = x ∨ y ∈ l := by
  induction l with
  | nil => simp [insertSorted]
  | cons z zs ih =>
      unfold insertSorted
      split
      · simp
      · simp only [List.mem_cons, ih]
        tauto

theorem mem_sortStrings (x : String) (l : List String) :
    x ∈ sortStrings l ↔ x ∈ l := by
  induction l with
  | nil => simp [sortStrings]
  | cons y ys ih =>
      rw [sortStrings_cons, mem_insertSorted]
      simp [ih]

theorem mem_inferCategories (x : String) (l : List String) (hx : x ∈ l) :
    x ∈ inferCategories l := by
  unfold inferCategories
  rw [List.mem_dedup, mem_sortStrings]
  exact hx

/-- C5: the grouped failure rate has exactly one entry per declared
category, in declaration order; a nonempty group's entry is the fraction
of its records with the failure flag set, while an empty group's entry is
the absent value `none`, which is distinguishable from a reported rate of
`some 0`; and the categories declared by the pipeline cover every observed
`algorithmType`. -/
theorem grouped_failure_rate_categories (cats : List String) (tbl : List Record) (c : String)
    (hc : c ∈ cats) :
    ((groupFailureMean cats tbl).map Prod.fst = cats) ∧
      ((c, if groupSize c tbl = 0 then (none : Option ℚ)
           else some ((failureTrueCount c tbl : ℚ) / (groupSize c tbl : ℚ))) ∈
        groupFailureMean cats tbl) ∧
      (groupSize c tbl = 0 → (c, (none : Option ℚ)) ∈ groupFailureMean cats tbl) ∧
      ((none : Option ℚ) ≠ some 0) ∧
      (failure_rates tbl =
        groupFailureMean (inferCategories (tbl.map (fun r => r.AlgorithmType))) tbl) ∧
      (∀ r ∈ tbl, r.AlgorithmType ∈ inferCategories (tbl.map (fun r => r.AlgorithmType))) := by
  refine ⟨?_, ?_, ?_, by simp, rfl, ?_⟩
  · unfold groupFailureMean
    rw [List.map_map]
    exact List.map_id _
  · unfold groupFailureMean
    refine List.mem_map.mpr ⟨c, hc, ?_⟩
    show (c, listMeanQ ((groupRecords c tbl).map (fun r => boolToQ r.Failure))) =
      (c, if groupSize c tbl = 0 then none
          else some ((failureTrueCount c tbl : ℚ) / (groupSize c tbl : ℚ)))
    rw [groupFailureMean_value]
  · intro hzero
    unfold groupFailureMean
    refine List.mem_map.mpr ⟨c, hc, ?_⟩
    show (c, listMeanQ ((groupRecords c tbl).map (fun r => boolToQ r.Failure))) =
      (c, (none : Option ℚ))
    rw [groupFailureMean_value, if_pos hzero]
  · intro r hr
    exact mem_inferCategories _ _ (List.mem_map_of_mem (fun r => r.AlgorithmType) hr)

/-- C5 witness: on an empty table with categories Genetic and Tournament
declared, the Tournament group is empty and reported as the absent value,
not as zero. -/
theorem grouped_failure_rate_categories_witness :
    ("Tournament") ∈ (["Genetic", "Tournament"] : List String) ∧
      (((groupFailureMean ["Genetic", "Tournament"] []).map Prod.fst =
          ["Genetic", "Tournament"]) ∧
        ((("Tournament"), if groupSize ("Tournament") ([] : List Record) = 0 then (none : Option ℚ)
             else some ((failureTrueCount ("Tournament") [] : ℚ) /
               (groupSize ("Tournament") ([] : List Record) : ℚ))) ∈
          groupFailureMean ["Genetic", "Tournament"] []) ∧
        (groupSize ("Tournament") ([] : List Record) = 0 →
          (("Tournament"), (none : Option ℚ)) ∈ groupFailureMean ["Genetic", "Tournament"] []) ∧
        ((none : Option ℚ) ≠ some 0) ∧
        (failure_rates ([] : List Record) =
          groupFailureMean (inferCategories (([] : List Record).map (fun r => r.AlgorithmType)))
            []) ∧
        (∀ r ∈ ([] : List Record),
          r.AlgorithmType ∈ inferCategories (([] : List Record).map (fun r => r.AlgorithmType)))) :=
  ⟨by decide, grouped_failure_rate_categories ["Genetic", "Tournament"] [] ("Tournament")
    (by decide)⟩

theorem runningAnalysis_not_mem_runTriple (solver : Solver) (n : Nat) (a : String) (s : Nat) :
    LogEvent.runningAnalysis ∉ runTriple solver n a s := by
  unfold runTriple
  cases solver n a s debug_mode with
  | finished out err c => cases he : err.isEmpty <;> simp [he]
  | raised m => simp

theorem pairedObs_filter_both (tbl : List Record) (c1 c2 : String) :
    pairedObs (tbl.filter (fun r => (getCol c1 r).isSome && (getCol c2 r).isSome)) c1 c2 =
      pairedObs tbl c1 c2 := by
  induction tbl with
  | nil => rfl
  | cons r tl ih =>
      cases h1 : getCol c1 r <;> cases h2 : getCol c2 r <;>
        simp [pairedObs, colPair, List.filter_cons, h1, h2] <;>
        simpa [pairedObs] using ih

/-- C6: the correlation matrix ranges over exactly the numeric fields with
`Seed` removed — `Seed` is numeric in the loaded table yet appears in
neither its rows nor its columns — and each entry is the Pearson
coefficient of the pairwise-complete observations of its two columns:
restricting the table to the rows where both cells are present leaves
every entry unchanged, so a missing cell drops the observation instead of
entering as zero. -/
theorem corr_matrix_excludes_seed_pairwise :
    corr_cols = ["Id", "NQueens", "MutationRate", "FinalMutationRate", "Generations",
        "PopulationSize", "Complexity", "ElapsedTimeSeconds", "StagnationCount",
        "StagnationMutationThresholdHigh", "StagnationMutationThresholdLow",
        "Intersections", "Failures"] ∧
      ("Seed") ∈ numeric_cols ∧
      ("Seed") ∉ corr_cols ∧
      (∀ tbl : List Record, (corr_matrix tbl).map Prod.fst = corr_cols) ∧
      (∀ (tbl : List Record) (c1 c2 : String),
        corrEntry tbl c1 c2 =
          corrEntry (tbl.filter (fun r => (getCol c1 r).isSome && (getCol c2 r).isSome))
            c1 c2) := by
  refine ⟨by decide, by decide, by decide, ?_, ?_⟩
  · intro tbl
    unfold corr_matrix
    rw [List.map_map]
    exact List.map_id _
  · intro tbl c1 c2
    unfold corrEntry
    rw [pairedObs_filter_both]

/-- C7: a malformed cell in a designated numeric field never makes loading
raise — the row is kept in place with that cell coerced to the sentinel —
the row contributes no observation to aggregates over that field, it still
counts fully toward its group's failure-rate denominator, and its failure
flag is still derived from its own `Intersections` cell. -/
theorem malformed_cell_degrades_to_missing (pre post : List RawRecord) (raw : RawRecord)
    (h : toNumeric raw.ElapsedTimeSeconds = none) :
    loadTable (pre ++ raw :: post) = loadTable pre ++ loadRecord raw :: loadTable post ∧
      (loadRecord raw).ElapsedTimeSeconds = none ∧
      elapsedObs (loadTable (pre ++ raw :: post)) =
        elapsedObs (loadTable pre) ++ elapsedObs (loadTable post) ∧
      (∀ c, groupSize c (loadTable (pre ++ raw :: post)) =
        groupSize c (loadTable (pre ++ post)) +
          (if raw.AlgorithmType == c then 1 else 0)) ∧
      (loadRecord raw).Failure = failureFlag (toNumeric raw.Intersections) := by
  have hload : (loadRecord raw).ElapsedTimeSeconds = none := h
  refine ⟨by simp [loadTable], hload, ?_, ?_, rfl⟩
  · simp [loadTable, elapsedObs, List.filterMap_append, List.filterMap_cons, hload]
  · intro c
    have halg : (loadRecord raw).AlgorithmType = raw.AlgorithmType := rfl
    simp only [loadTable, groupSize, groupRecords, List.map_append, List.map_cons,
      List.filter_append, List.filter_cons, List.length_append, halg]
    cases hc : (raw.AlgorithmType == c) <;> (simp [hc]; try omega)

/-- C7 witness: a row with `ElapsedTimeSeconds` cell `abc` loads, carries
the sentinel, is excluded from elapsed-time observations, and still counts
in its group. -/
theorem malformed_cell_degrades_to_missing_witness :
    toNumeric rawMalformedElapsed.ElapsedTimeSeconds = none ∧
      (loadTable ([] ++ rawMalformedElapsed :: []) =
          loadTable [] ++ loadRecord rawMalformedElapsed :: loadTable [] ∧
        (loadRecord rawMalformedElapsed).ElapsedTimeSeconds = none ∧
        elapsedObs (loadTable ([] ++ rawMalformedElapsed :: [])) =
          elapsedObs (loadTable []) ++ elapsedObs (loadTable []) ∧
        (∀ c, groupSize c (loadTable ([] ++ rawMalformedElapsed :: [])) =
          groupSize c (loadTable ([] ++ [])) +
            (if rawMalformedElapsed.AlgorithmType == c then 1 else 0)) ∧
        (loadRecord rawMalformedElapsed).Failure =
          failureFlag (toNumeric rawMalformedElapsed.Intersections)) :=
  ⟨by decide, malformed_cell_degrades_to_missing [] [] rawMalformedElapsed (by decide)⟩

/-- C8 (amended): an absent solver executable makes the driver exit with
code 1 and a diagnostic before any invocation, and an absent record store
makes the aggregator exit with code 1 and a diagnostic before any
artifact; but a present store is never fatal, whatever its contents — in
particular a present store with zero records still runs to completion and
produces every artifact, so emptiness is not among the fatal conditions. -/
theorem fatal_config_errors :
    (∀ (analysisExists : Bool) (solver : Solver) (ns : List Nat) (algs : List String)
        (sds : List Nat) (outcome : ProcResult),
      driverMain false analysisExists solver ns algs sds outcome =
        (1, [LogEvent.exeMissingError])) ∧
      analyzerMain none = AnalyzerResult.fatal ("Error: summary.csv not found in Data folder.") 1 ∧
      (∀ rows : List RawRecord,
        analyzerMain (some rows) =
          AnalyzerResult.completed allArtifacts (failure_rates (loadTable rows))
            (reduced_df rows)) :=
  ⟨fun _ _ _ _ _ _ => rfl, rfl, fun _ => rfl⟩

/-- C8 counterexample: a record store that exists but holds zero records
does not halt the aggregator — the run completes and every artifact is
produced, contradicting the claim that an empty store is fatal before any
artifact. -/
theorem empty_store_not_fatal_counterexample :
    analyzerMain (some []) = AnalyzerResult.completed allArtifacts [] [] ∧
      allArtifacts ≠ [] ∧
      (∀ (msg : String) (k : Int), analyzerMain (some []) ≠ AnalyzerResult.fatal msg k) := by
  refine ⟨rfl, by decide, ?_⟩
  intro msg k hcontra
  simp [analyzerMain] at hcontra

/-- C9: once the executable exists, the driver's console log always ends
with the completion report; the analysis step is entered exactly when the
aggregator script exists at the configured path and is skipped (with the
skip notice) otherwise; and the driver's behavior — including the
completion report and its exit code 0 — is identical whatever the outcome
of the analysis invocation is. -/
theorem driver_reports_completion (analysisExists : Bool) (solver : Solver)
    (ns : List Nat) (algs : List String) (sds : List Nat) (o1 o2 : ProcResult) :
    ((driverMain true analysisExists solver ns algs sds o1).2.getLast? =
        some LogEvent.allCompleted) ∧
      driverMain true analysisExists solver ns algs sds o1 =
        driverMain true analysisExists solver ns algs sds o2 ∧
      (LogEvent.runningAnalysis ∈ (driverMain true true solver ns algs sds o1).2) ∧
      (LogEvent.runningAnalysis ∉ (driverMain true false solver ns algs sds o1).2) ∧
      (LogEvent.analysisSkipped ∈ (driverMain true false solver ns algs sds o1).2) ∧
      (driverMain true analysisExists solver ns algs sds o1).1 = 0 := by
  refine ⟨?_, rfl, ?_, ?_, ?_, rfl⟩
  · show (((sweepLog solver ns algs sds).flatMap Prod.snd ++
        (if analysisExists then [LogEvent.runningAnalysis] else [LogEvent.analysisSkipped])) ++
        [LogEvent.allCompleted]).getLast? = some LogEvent.allCompleted
    exact List.getLast?_concat _
  · simp [driverMain]
  · show LogEvent.runningAnalysis ∉ (sweepLog solver ns algs sds).flatMap Prod.snd ++
      (if (false : Bool) then [LogEvent.runningAnalysis] else [LogEvent.analysisSkipped]) ++
      [LogEvent.allCompleted]
    intro hmem
    simp only [Bool.false_eq_true, if_false, List.mem_append, List.mem_singleton] at hmem
    rcases hmem with (hflat | hskip) | hdone
    · obtain ⟨pair, hpair, hin⟩ := List.mem_flatMap.mp hflat
      obtain ⟨t, _, rfl⟩ := List.mem_map.mp hpair
      exact runningAnalysis_not_mem_runTriple solver t.1 t.2.1 t.2.2 hin
    · cases hskip
    · cases hdone
  · simp [driverMain]

/-- C10: a record whose `Intersections` cell fails coercion gets the
failure flag `false`: it is kept by the valid-run filter, it adds nothing
to any group's failure numerator while still adding one to its own group's
denominator, and when its elapsed-time cell parses, that time enters the
valid-run elapsed observations of its group. -/
theorem missing_intersections_counts_valid (pre post : List RawRecord) (raw : RawRecord)
    (h : toNumeric raw.Intersections = none) :
    (loadRecord raw).Failure = false ∧
      loadRecord raw ∈ df_valid (loadTable (pre ++ raw :: post)) ∧
      (∀ c, failureTrueCount c (loadTable (pre ++ raw :: post)) =
        failureTrueCount c (loadTable (pre ++ post))) ∧
      (∀ c, groupSize c (loadTable (pre ++ raw :: post)) =
        groupSize c (loadTable (pre ++ post)) + (if raw.AlgorithmType == c then 1 else 0)) ∧
      (∀ q : ℚ, toNumeric raw.ElapsedTimeSeconds = some q →
        q ∈ avgElapsedObs raw.AlgorithmType (loadTable (pre ++ raw :: post))) := by
  have hFail : (loadRecord raw).Failure = false := by
    show failureFlag (toNumeric raw.Intersections) = false
    rw [h]
    rfl
  have hmem : loadRecord raw ∈ loadTable (pre ++ raw :: post) := by
    simp [loadTable]
  have hvalid : loadRecord raw ∈ df_valid (loadTable (pre ++ raw :: post)) :=
    List.mem_filter.mpr ⟨hmem, by simp [hFail]⟩
  have halg : (loadRecord raw).AlgorithmType = raw.AlgorithmType := rfl
  refine ⟨hFail, hvalid, ?_, ?_, ?_⟩
  · intro c
    simp only [loadTable, failureTrueCount, groupRecords, List.map_append, List.map_cons,
      List.filter_append, List.filter_cons, List.length_append, halg]
    cases hc : (raw.AlgorithmType == c) <;> simp [hc, hFail]
  · intro c
    simp only [loadTable, groupSize, groupRecords, List.map_append, List.map_cons,
      List.filter_append, List.filter_cons, List.length_append, halg]
    cases hc : (raw.AlgorithmType == c) <;> (simp [hc]; try omega)
  · intro q hq
    have helapsed : (loadRecord raw).ElapsedTimeSeconds = some q := hq
    refine List.mem_filterMap.mpr ⟨loadRecord raw, ?_, helapsed⟩
    exact List.mem_filter.mpr ⟨hvalid, by simp [halg]⟩

/-- C10 witness: a row with `Intersections` cell `NA` loads as a valid,
non-failing record that counts in its group's denominator only. -/
theorem missing_intersections_counts_valid_witness :
    toNumeric rawMissingIntersections.Intersections = none ∧
      ((loadRecord rawMissingIntersections).Failure = false ∧
        loadRecord rawMissingIntersections ∈
          df_valid (loadTable ([] ++ rawMissingIntersections :: [])) ∧
        (∀ c, failureTrueCount c (loadTable ([] ++ rawMissingIntersections :: [])) =
          failureTrueCount c (loadTable ([] ++ []))) ∧
        (∀ c, groupSize c (loadTable ([] ++ rawMissingIntersections :: [])) =
          groupSize c (loadTable ([] ++ [])) +
            (if rawMissingIntersections.AlgorithmType == c then 1 else 0)) ∧
        (∀ q : ℚ, toNumeric rawMissingIntersections.ElapsedTimeSeconds = some q →
          q ∈ avgElapsedObs rawMissingIntersections.AlgorithmType
            (loadTable ([] ++ rawMissingIntersections :: [])))) :=
  ⟨by decide, missing_intersections_counts_valid [] [] rawMissingIntersections (by decide)⟩
